import Mathlib

/-
Verification development for the VK-Data-Analysi crawler (src/VK_Data.py).

Shallow embedding of the source program:
  * the remote VK API is modelled as an environment (Env / attempt oracles)
    supplying, per request, the data the remote side would return;
  * vk_api_request is modelled by its retry loop over an oracle of per-attempt
    outcomes, recording the number of attempts and of time.sleep(delay) calls;
  * process_profile is a pure function and is translated directly;
  * the subscriptions while-loop of get_user_data is subsLoop, recording the
    accumulated open-group ids, the envelope count field last assigned to
    subscriptions_count, and the offsets of the issued paged requests;
  * the Neo4j write methods are modelled as a trace of DbWrite calls; the
    Cypher MERGE/MATCH semantics of the four write templates is applyWrite
    (a MATCH that finds no node makes the write a no-op, as in Cypher);
  * get_user_data / get_detailed_data are translated with the write trace and
    a trace of issued API fetches made explicit, threading the visited list.
-/

/- ApiClient: per-attempt outcome of one HTTP request inside vk_api_request.
transportError covers requests exceptions (network error, non-2xx, bad body);
apiError is a parsed envelope carrying error.error_code; success is a parsed
envelope carrying the response payload. -/
inductive AttemptOutcome (A : Type) where
  | transportError
  | apiError (error_code : Int) (error_msg : String)
  | success (response : A)
deriving DecidableEq

inductive VkResult (A : Type) where
  | payload (response : A)
  | privateSentinel
  | fatal
deriving DecidableEq

/- One attempt of the loop body of vk_api_request: lines 16-32 of the source.
some r : the attempt returns (sentinel for error_code 30, payload otherwise);
none : the attempt fails (transport error, or an API error other than 30,
which the source re-raises and immediately catches at line 31). -/
def attemptStep {A : Type} : AttemptOutcome A → Option (VkResult A)
  | AttemptOutcome.transportError => none
  | AttemptOutcome.apiError code _ =>
      if code == 30 then some VkResult.privateSentinel else none
  | AttemptOutcome.success r => some (VkResult.payload r)

structure VkCallTrace (A : Type) where
  result : VkResult A
  attempts : Nat
  sleeps : Nat
deriving DecidableEq

/- Retry loop of vk_api_request (for attempt in range(retries), lines 15-37):
a failed attempt logs and then always executes time.sleep(delay) at line 35,
also after the last attempt; exhausting retries raises (VkResult.fatal).
i is the index of the next attempt, the second argument the attempts left. -/
def vkLoop {A : Type} (outcomes : Nat → AttemptOutcome A) : Nat → Nat → VkCallTrace A
  | _, 0 => ⟨VkResult.fatal, 0, 0⟩
  | i, Nat.succ k =>
    match attemptStep (outcomes i) with
    | some r => ⟨r, 1, 0⟩
    | none =>
      let t := vkLoop outcomes (i + 1) k
      ⟨t.result, t.attempts + 1, t.sleeps + 1⟩

/- Token selection of vk_api_request lines 9-12: the service token is used
exactly when use_service_token is set and service_token is truthy. -/
def select_token (token : String) (use_service_token : Bool)
    (service_token : Option String) : String :=
  if use_service_token && (service_token.getD "" != "") then service_token.getD ""
  else token

/- vk_api_request, lines 7-37: pairs the retry-loop trace with the
access_token injected into the outgoing parameters. -/
def vk_api_request {A : Type} (outcomes : Nat → AttemptOutcome A) (token : String)
    (retries : Nat) (use_service_token : Bool) (service_token : Option String) :
    VkCallTrace A × String :=
  (vkLoop outcomes 0 retries, select_token token use_service_token service_token)

/- ProfileNormalizer: raw user record as delivered by users.get / friends.get.
deactivated is the presence of the deactivated key; is_closed and
can_access_closed model the truthiness of the optional raw fields. -/
structure RawProfile where
  id : Int
  first_name : Option String
  last_name : Option String
  screen_name : Option String
  sex : Option Int
  home_town : Option String
  city_title : Option String
  deactivated : Bool
  is_closed : Option Bool
  can_access_closed : Option Bool
deriving DecidableEq

structure UserInfo where
  id : Int
  screen_name : String
  name : String
  sex : Int
  home_town : String
  is_private : Bool
deriving DecidableEq

/- Python str.strip(): drop leading and trailing whitespace. -/
def pyStrip (s : String) : String :=
  String.mk (((s.data.dropWhile Char.isWhitespace).reverse.dropWhile
    Char.isWhitespace).reverse)

/- process_profile, lines 40-53 of the source. -/
def process_profile (profile : RawProfile) : UserInfo :=
  { id := profile.id
    screen_name := profile.screen_name.getD ""
    name := pyStrip ((profile.first_name.getD "") ++ " " ++ (profile.last_name.getD ""))
    sex := profile.sex.getD 0
    home_town :=
      if profile.home_town.getD "" = "" then profile.city_title.getD ""
      else profile.home_town.getD ""
    is_private := profile.deactivated ||
      ((profile.is_closed.getD false) && !(profile.can_access_closed.getD false)) }

/- SubscriptionCollector: one item of a users.getSubscriptions page. -/
structure SubItem where
  id : Int
  is_closed : Int
deriving DecidableEq

structure SubsResult where
  all_group_ids : List Int
  subscriptions_count : Nat
  offsets : List Nat
deriving DecidableEq

/- The while-True pagination loop of get_user_data, lines 205-232.
data is the remote list of subscription items, total the envelope count field
every page reports; each iteration requests the page of 200 items at offset
(drop offset, take 200 models the remote paging), keeps ids of items with
is_closed == 0, assigns subscriptions_count := total, and stops when the page
is short or the accumulator has reached subscriptions_limit. -/
def subsLoop (data : List SubItem) (total subscriptions_limit : Nat) (offset : Nat)
    (acc : List Int) (offs : List Nat) : SubsResult :=
  if ((data.drop offset).take 200).length < 200 ∨
      subscriptions_limit ≤ (acc ++ ((((data.drop offset).take 200).filter
        (fun s => s.is_closed == 0)).map SubItem.id)).length then
    ⟨acc ++ ((((data.drop offset).take 200).filter (fun s => s.is_closed == 0)).map SubItem.id),
     total, offs ++ [offset]⟩
  else
    subsLoop data total subscriptions_limit (offset + 200)
      (acc ++ ((((data.drop offset).take 200).filter (fun s => s.is_closed == 0)).map SubItem.id))
      (offs ++ [offset])
termination_by data.length - offset
decreasing_by
  simp only [not_or, not_lt, List.length_take, List.length_drop] at *
  omega

/- Chunking of line 239 of the source:
group_chunks = [ids[i:i + 500] for i in range(0, len(ids), 500)].
(len + 499) / 500 is the number of elements of range(0, len, 500). -/
def group_chunks (l : List Int) : List (List Int) :=
  (List.range' 0 ((l.length + 499) / 500) 500).map (fun i => (l.drop i).take 500)

/- The batched groups.getById calls of lines 238-249: one call per chunk,
every call issued with use_service_token=True and the service token, so the
injected access_token is select_token token true service_token. -/
def resolve_group_calls (token : String) (service_token : Option String)
    (all_group_ids : List Int) : List (String × List Int) :=
  (group_chunks all_group_ids).map
    (fun chunk => (select_token token true service_token, chunk))

/- GraphStore: the write calls issued through Neo4jHandler, in program order. -/
structure GroupRec where
  id : Int
  name : String
  members_count : Int
deriving DecidableEq

inductive DbWrite where
  | userNode (u : UserInfo) (friends_count subscriptions_count : Nat)
  | groupNode (id : Int) (name : String) (members_count : Int)
  | friendEdge (src dst : Int)
  | subEdge (uid gid : Int)
deriving DecidableEq

structure StoredUser where
  id : Int
  screen_name : String
  name : String
  sex : Int
  home_town : String
  friends_count : Nat
  subscriptions_count : Nat
deriving DecidableEq

structure StoredGroup where
  id : Int
  name : String
  members_count : Int
deriving DecidableEq

structure Store where
  users : List StoredUser
  groups : List StoredGroup
  friend_edges : List (Int × Int)
  sub_edges : List (Int × Int)
deriving DecidableEq

def emptyStore : Store := ⟨[], [], [], []⟩

/- Cypher semantics of the four write templates (lines 72-147 of the source):
_create_user_node and _create_group_node MERGE on id then SET the mutable
properties (create if absent, else overwrite); _create_friendship_relation
and _create_subscription_relation MATCH both endpoints by id and MERGE the
edge, so when either endpoint node does not exist the MATCH yields no rows
and nothing is created. -/
def applyWrite (st : Store) : DbWrite → Store
  | DbWrite.userNode u fc sc =>
    let su : StoredUser := ⟨u.id, u.screen_name, u.name, u.sex, u.home_town, fc, sc⟩
    if st.users.any (fun x => x.id == u.id) then
      { st with users := st.users.map (fun x => if x.id == u.id then su else x) }
    else
      { st with users := st.users ++ [su] }
  | DbWrite.groupNode gid gname mc =>
    if st.groups.any (fun x => x.id == gid) then
      { st with groups := st.groups.map (fun x => if x.id == gid then ⟨gid, gname, mc⟩ else x) }
    else
      { st with groups := st.groups ++ [⟨gid, gname, mc⟩] }
  | DbWrite.friendEdge src dst =>
    if st.users.any (fun x => x.id == src) && st.users.any (fun x => x.id == dst) then
      if (src, dst) ∈ st.friend_edges then st
      else { st with friend_edges := st.friend_edges ++ [(src, dst)] }
    else st
  | DbWrite.subEdge uid gid =>
    if st.users.any (fun x => x.id == uid) && st.groups.any (fun x => x.id == gid) then
      if (uid, gid) ∈ st.sub_edges then st
      else { st with sub_edges := st.sub_edges ++ [(uid, gid)] }
    else st

def applyWrites (st : Store) (ws : List DbWrite) : Store :=
  ws.foldl applyWrite st

/- CrawlOrchestrator: the remote side seen by one crawl run.
profile uid models the users.get call for uid: none when every attempt fails
(get_user_data lines 160-168 then catch and return None), some raw when the
call succeeds with record raw. friends uid models friends.get for uid: none
when the fetch fails or has an unexpected shape (no items, count 0), some l
when it returns items l. subs uid models the users.getSubscriptions
interaction: none when it fails (subscriptions_count stays 0, no group
writes), some (data, total) for a remote dataset data whose envelope reports
count total. group g is the groups.getById record for group id g. -/
structure Env where
  profile : Int → Option RawProfile
  friends : Int → Option (List RawProfile)
  subs : Int → Option (List SubItem × Nat)
  group : Int → GroupRec

/- The API fetches issued by the crawl, in program order. -/
inductive FetchEv where
  | profileFetch (uid : Int)
  | friendsFetch (uid : Int)
  | subsFetch (uid : Int)
  | groupsFetch (chunk : List Int)
deriving DecidableEq

/- get_user_data, lines 159-276 of the source, as the pair of the fetches it
issues and the Neo4j writes it performs, in order. When the users.get call
fails the function returns None at line 168: only the attempted profile
fetch happened, no write is performed. Otherwise: the friends block (lines
175-196) writes, per non-private friend, the friend node and then the FRIEND
edge from user_info id, and sets friends_count to the length of the items
list (0 on failure); the subscriptions block (lines 199-268) runs subsLoop,
truncates to subscriptions_limit, chunks, and per chunk writes each group
node followed by the SUBSCRIBED_TO edge; finally line 275 writes the user
node carrying friends_count and subscriptions_count. -/
def get_user_data (env : Env) (user_id : Int)
    (friends_limit subscriptions_limit : Nat) : List FetchEv × List DbWrite :=
  match env.profile user_id with
  | none => ([FetchEv.profileFetch user_id], [])
  | some raw =>
    let user_info := process_profile raw
    let friends_list := (env.friends user_id).getD []
    let fWrites := friends_list.flatMap (fun f =>
      if (process_profile f).is_private then []
      else [DbWrite.userNode (process_profile f) 0 0,
            DbWrite.friendEdge user_info.id (process_profile f).id])
    match env.subs user_id with
    | none =>
      ([FetchEv.profileFetch user_id, FetchEv.friendsFetch user_id, FetchEv.subsFetch user_id],
       fWrites ++ [DbWrite.userNode user_info friends_list.length 0])
    | some (data, total) =>
      let res := subsLoop data total subscriptions_limit 0 [] []
      let chunks := group_chunks (res.all_group_ids.take subscriptions_limit)
      ([FetchEv.profileFetch user_id, FetchEv.friendsFetch user_id, FetchEv.subsFetch user_id]
         ++ chunks.map FetchEv.groupsFetch,
       fWrites
         ++ chunks.flatMap (fun chunk =>
              (chunk.map env.group).flatMap (fun g =>
                [DbWrite.groupNode g.id g.name g.members_count,
                 DbWrite.subEdge user_info.id g.id]))
         ++ [DbWrite.userNode user_info friends_list.length res.subscriptions_count])

mutual

/- get_detailed_data, lines 279-311 of the source: returns the visited list
after the call together with the fetches and writes of the whole subtree.
A visited user id returns immediately; otherwise the id is added, the
per-user step get_user_data runs unconditionally (its None result on a
failed profile fetch is ignored by the caller, line 288), and when
current_depth < depth_limit the friends are fetched again (lines 292-297)
and each non-private friend is crawled at current_depth + 1 with the same
visited list threaded through. -/
def get_detailed_data (env : Env) (user_id : Int)
    (depth_limit current_depth friends_limit subscriptions_limit : Nat)
    (visited : List Int) : List Int × List FetchEv × List DbWrite :=
  if user_id ∈ visited then (visited, [], [])
  else
    let ud := get_user_data env user_id friends_limit subscriptions_limit
    if current_depth < depth_limit then
      match env.friends user_id with
      | none => (user_id :: visited, ud.1 ++ [FetchEv.friendsFetch user_id], ud.2)
      | some friends_list =>
        let r := crawlFriends env friends_list depth_limit (current_depth + 1)
          friends_limit subscriptions_limit (user_id :: visited)
        (r.1, ud.1 ++ [FetchEv.friendsFetch user_id] ++ r.2.1, ud.2 ++ r.2.2)
    else (user_id :: visited, ud.1, ud.2)
termination_by (depth_limit + 1 - current_depth, 0, 0)

/- The for-loop over friends_list of lines 301-307: skip private friends,
recurse into the others in order, threading the visited list. -/
def crawlFriends (env : Env) (fs : List RawProfile)
    (depth_limit next_depth friends_limit subscriptions_limit : Nat)
    (visited : List Int) : List Int × List FetchEv × List DbWrite :=
  match fs with
  | [] => (visited, [], [])
  | f :: rest =>
    if (process_profile f).is_private then
      crawlFriends env rest depth_limit next_depth friends_limit subscriptions_limit visited
    else
      let r1 := get_detailed_data env (process_profile f).id depth_limit next_depth
        friends_limit subscriptions_limit visited
      let r2 := crawlFriends env rest depth_limit next_depth friends_limit
        subscriptions_limit r1.1
      (r2.1, r1.2.1 ++ r2.2.1, r1.2.2 ++ r2.2.2)
termination_by (depth_limit + 1 - next_depth, 1, fs.length)

end

/- User ids for which a users.get profile fetch was issued, in order. -/
def fetchedUsers (evs : List FetchEv) : List Int :=
  evs.filterMap (fun e => match e with
    | FetchEv.profileFetch u => some u
    | _ => none)

/- User-node ids in the order their create_user calls were issued. -/
def userNodeIds (ws : List DbWrite) : List Int :=
  ws.filterMap (fun w => match w with
    | DbWrite.userNode u _ _ => some u.id
    | _ => none)

/- FRIEND-edge creation calls (src, dst) in issue order. -/
def friendEdgeCalls (ws : List DbWrite) : List (Int × Int) :=
  ws.filterMap (fun w => match w with
    | DbWrite.friendEdge a b => some (a, b)
    | _ => none)

/- Spec-side formulation of the privacy rule, following the words of the
claim: is_private is true exactly when the record is marked deactivated, or
its is_closed flag is true and its can-access-closed flag is absent or
false. -/
def claimed_is_private (p : RawProfile) : Bool :=
  p.deactivated ||
    ((p.is_closed == some true) &&
      ((p.can_access_closed == none) || (p.can_access_closed == some false)))

/- The remote dataset of the pagination scenario: 650 subscription items, all
with is_closed = 0 (publicly joinable). -/
def subsData650 : List SubItem := List.replicate 650 ⟨7, 0⟩

/- Open (non-private) and closed (private) raw profiles used in the concrete
crawl scenarios. -/
def rpOpen (i : Int) : RawProfile :=
  ⟨i, none, none, none, none, none, none, false, some false, none⟩

def rpClosed (i : Int) : RawProfile :=
  ⟨i, none, none, none, none, none, none, false, some true, none⟩

/- Environment of the C10 witness: user 1 with 650 open subscriptions,
envelope count 650, subscriptions_limit 300 in the calls below. -/
def envC10 : Env :=
  { profile := fun i => if i = 1 then some (rpOpen 1) else none
    friends := fun _ => none
    subs := fun i => if i = 1 then some (subsData650, 650) else none
    group := fun g => ⟨g, "", 0⟩ }

/- Environment of the C1 counterexample and of several witnesses: the root
user 1 has a failing profile fetch but one open friend, user 2, whose
profile fetch succeeds. -/
def envC1 : Env :=
  { profile := fun i => if i = 1 then none else if i = 2 then some (rpOpen 2) else none
    friends := fun i => if i = 1 then some [rpOpen 2] else none
    subs := fun _ => none
    group := fun g => ⟨g, "", 0⟩ }

/- Environment of the C4 scenario: a fresh store, root user 1 with three
friends of which exactly one (user 4) is private, and no subscriptions. -/
def envC4 : Env :=
  { profile := fun i => if i = 1 then some (rpOpen 1) else none
    friends := fun i => if i = 1 then some [rpOpen 2, rpOpen 3, rpClosed 4] else none
    subs := fun i => if i = 1 then some ([], 0) else none
    group := fun g => ⟨g, "", 0⟩ }

/- Environment of the C6 scenario: root user 1 with open friends 2 and 3;
friend 2 itself has an open friend 5, reachable only at depth 2. -/
def envC6 : Env :=
  { profile := fun i =>
      if i = 1 then some (rpOpen 1)
      else if i = 2 then some (rpOpen 2)
      else if i = 3 then some (rpOpen 3)
      else if i = 5 then some (rpOpen 5)
      else none
    friends := fun i =>
      if i = 1 then some [rpOpen 2, rpOpen 3]
      else if i = 2 then some [rpOpen 5]
      else none
    subs := fun _ => some ([], 0)
    group := fun g => ⟨g, "", 0⟩ }

/- Helper lemmas about the retry loop. -/

theorem vkLoop_all_fail {A : Type} (outcomes : Nat → AttemptOutcome A)
    (hfail : ∀ j, attemptStep (outcomes j) = none) (i r : Nat) :
    vkLoop outcomes i r = ⟨VkResult.fatal, r, r⟩ := by
  induction r generalizing i with
  | zero => rfl
  | succ k ih =>
    simp only [vkLoop, hfail i, ih (i + 1)]

/-- C3 (corrected): a vk_api_request call whose every attempt fails performs
exactly retries attempts and then raises a fatal error, but it sleeps the
configured delay after every failed attempt, including after the last one:
with the default retries = 3 it sleeps 3 times, not only between consecutive
attempts. -/
theorem C3_thm {A : Type} (outcomes : Nat → AttemptOutcome A) (token : String)
    (hfail : ∀ j, attemptStep (outcomes j) = none) :
    (vk_api_request outcomes token 3 false none).1 =
      ⟨VkResult.fatal, 3, 3⟩ := by
  unfold vk_api_request
  exact vkLoop_all_fail outcomes hfail 0 3

/-- C3 witness: all three attempts are transport failures; the call makes 3
attempts, sleeps 3 times and fails. -/
theorem C3_witness :
    (∀ j : Nat, attemptStep ((fun _ : Nat => (AttemptOutcome.transportError : AttemptOutcome Unit)) j) = none) ∧
    (vk_api_request (fun _ => (AttemptOutcome.transportError : AttemptOutcome Unit)) "t" 3 false none).1 =
      ⟨VkResult.fatal, 3, 3⟩ :=
  ⟨fun _ => rfl, C3_thm (fun _ => AttemptOutcome.transportError) "t" (fun _ => rfl)⟩

/-- C3 counterexample: with every attempt failing, the loop executes
time.sleep after each of the 3 failed attempts, so 3 sleeps occur, not the 2
claimed (only between attempts 1 and 2 and between attempts 2 and 3). -/
theorem C3_counterexample :
    (vk_api_request (fun _ => (AttemptOutcome.transportError : AttemptOutcome Unit)) "t" 3 false none).1.sleeps
      = 3 ∧
    ¬ (vk_api_request (fun _ => (AttemptOutcome.transportError : AttemptOutcome Unit)) "t" 3 false none).1.sleeps
      = 2 := by
  decide

/-- C9 (confirmed): an attempt whose envelope reports error code 30 makes
vk_api_request return the sentinel is_private value at once, with one attempt
and no sleep and no retry, for any positive retry budget; an envelope with
any other error code fails the attempt and is retried, as shown by a second
oracle whose first attempt reports code c and whose second attempt succeeds:
the call returns the payload after 2 attempts and 1 sleep. -/
theorem C9_thm {A : Type} (out30 outOther : Nat → AttemptOutcome A)
    (token : String) (r : Nat) (msg msg2 : String) (c : Int) (p : A)
    (hr : 1 ≤ r)
    (h30 : out30 0 = AttemptOutcome.apiError 30 msg)
    (hc : c ≠ 30)
    (ho0 : outOther 0 = AttemptOutcome.apiError c msg2)
    (ho1 : outOther 1 = AttemptOutcome.success p) :
    (vk_api_request out30 token r false none).1 = ⟨VkResult.privateSentinel, 1, 0⟩ ∧
    (vk_api_request outOther token 3 false none).1 = ⟨VkResult.payload p, 2, 1⟩ := by
  constructor
  · obtain ⟨k, rfl⟩ := Nat.exists_eq_add_of_le hr
    unfold vk_api_request
    rw [Nat.add_comm]
    simp [vkLoop, h30, attemptStep]
  · unfold vk_api_request
    have hcb : (c == 30) = false := by simpa using hc
    simp [vkLoop, ho0, ho1, attemptStep, hcb]

/-- C9 witness: code 30 on the first attempt yields the sentinel in one
attempt; code 5 on the first attempt is retried and the second attempt
succeeds. -/
theorem C9_witness :
    ((1 : Nat) ≤ 2 ∧ (5 : Int) ≠ 30) ∧
    (vk_api_request (fun _ => (AttemptOutcome.apiError 30 "m" : AttemptOutcome Unit)) "t" 2 false none).1 =
      ⟨VkResult.privateSentinel, 1, 0⟩ ∧
    (vk_api_request (fun j => if j = 0 then (AttemptOutcome.apiError 5 "e" : AttemptOutcome Unit)
        else AttemptOutcome.success ()) "t" 3 false none).1 =
      ⟨VkResult.payload (), 2, 1⟩ :=
  ⟨⟨by decide, by decide⟩,
   C9_thm (fun _ => AttemptOutcome.apiError 30 "m")
     (fun j => if j = 0 then AttemptOutcome.apiError 5 "e" else AttemptOutcome.success ())
     "t" 2 "m" "e" 5 () (by decide) rfl (by decide) rfl rfl⟩


/-- C7 (confirmed): for every raw profile record the normalizer sets
is_private to true exactly when the record is marked deactivated, or its
is_closed flag is true and its can-access-closed flag is absent or false;
otherwise is_private is false. -/
theorem C7_thm (p : RawProfile) :
    (process_profile p).is_private = claimed_is_private p := by
  rcases p with ⟨i, fn, ln, sn, sx, ht, ct, d, ic, cac⟩
  simp only [process_profile, claimed_is_private]
  rcases ic with _ | b <;> rcases cac with _ | c <;> cases d <;>
    first
      | rfl
      | (cases b <;> first | rfl | (cases c <;> rfl))

/- Helper lemmas about chunking. -/

theorem group_chunks_1200 (l : List Int) (h : l.length = 1200) :
    group_chunks l = [l.take 500, (l.drop 500).take 500, l.drop 1000] := by
  unfold group_chunks
  rw [h]
  have hr : List.range' 0 ((1200 + 499) / 500) 500 = [0, 500, 1000] := by decide
  rw [hr]
  simp only [List.map_cons, List.map_nil, List.drop_zero]
  have h1000 : (l.drop 1000).take 500 = l.drop 1000 :=
    List.take_of_length_le (by simp [h])
  rw [h1000]

/-- C8 (confirmed): 1200 accumulated group ids are partitioned into chunks of
at most 500 preserving accumulation order (their concatenation is the
original list), producing exactly 3 batched group-lookup calls of sizes 500,
500 and 200, each issued with the service credential. -/
theorem C8_thm (token st : String) (ids : List Int)
    (h : ids.length = 1200) (hst : st ≠ "") :
    ((resolve_group_calls token (some st) ids).map (fun c => c.2.length) = [500, 500, 200]) ∧
    (((resolve_group_calls token (some st) ids).map Prod.snd).flatten = ids) ∧
    (∀ c ∈ resolve_group_calls token (some st) ids, c.1 = st) := by
  have hsel : select_token token true (some st) = st := by
    simp [select_token, hst]
  unfold resolve_group_calls
  rw [group_chunks_1200 ids h]
  refine ⟨?_, ?_, ?_⟩
  · simp [List.length_take, List.length_drop, h]
  · have hjoin : (l : List Int) →
        l.take 500 ++ ((l.drop 500).take 500 ++ (l.drop 1000 ++ [])) = l := by
      intro l
      rw [List.append_nil]
      have h2 : l.drop 1000 = (l.drop 500).drop 500 := by
        rw [List.drop_drop]
      rw [h2, List.take_append_drop, List.take_append_drop]
    simpa using hjoin ids
  · intro c hc
    simp only [List.map_cons, List.map_nil, List.mem_cons, List.not_mem_nil, or_false,
      hsel] at hc
    rcases hc with rfl | rfl | rfl <;> rfl

/-- C8 witness: 1200 concrete ids with a non-empty service token. -/
theorem C8_witness :
    ((List.replicate 1200 (0 : Int)).length = 1200 ∧ ("s" : String) ≠ "") ∧
    ((resolve_group_calls "t" (some "s") (List.replicate 1200 (0 : Int))).map
        (fun c => c.2.length) = [500, 500, 200]) ∧
    (((resolve_group_calls "t" (some "s") (List.replicate 1200 (0 : Int))).map
        Prod.snd).flatten = List.replicate 1200 (0 : Int)) ∧
    (∀ c ∈ resolve_group_calls "t" (some "s") (List.replicate 1200 (0 : Int)), c.1 = "s") :=
  ⟨⟨by rw [List.length_replicate], by decide⟩,
   C8_thm "t" "s" (List.replicate 1200 (0 : Int)) (by rw [List.length_replicate]) (by decide)⟩

/- Helper lemmas about the pagination loop. -/

theorem subsLoop_count (data : List SubItem) (total slim offset : Nat)
    (acc : List Int) (offs : List Nat) :
    (subsLoop data total slim offset acc offs).subscriptions_count = total := by
  induction offset, acc, offs using subsLoop.induct data total slim with
  | case1 offset acc offs h =>
    rw [subsLoop.eq_def, if_pos h]
  | case2 offset acc offs h ih =>
    rw [subsLoop.eq_def, if_neg h]
    exact ih


theorem subsLoop_650 :
    subsLoop subsData650 650 300 0 [] [] =
      ⟨List.replicate 400 7, 650, [0, 200]⟩ := by
  rw [subsLoop.eq_def]
  norm_num [subsData650, List.take_replicate, List.drop_replicate, List.filter_replicate,
    List.map_replicate]
  rw [subsLoop.eq_def]
  norm_num [List.take_replicate, List.drop_replicate, List.filter_replicate,
    List.map_replicate, ← List.replicate_add]

/-- C2 counterexample: for a user whose subscriptions listing reports 650
total items, all publicly joinable, with page size 200 and
subscriptions_limit = 300, the loop does not request offset 400: the issued
offsets are [0, 200], because after the offset-200 page the accumulator
already holds 400 >= 300 kept ids; the truncated result still has exactly
300 ids. -/
theorem C2_counterexample :
    (subsLoop subsData650 650 300 0 [] []).offsets ≠ [0, 200, 400] ∧
    ((subsLoop subsData650 650 300 0 [] []).all_group_ids.take 300).length = 300 := by
  rw [subsLoop_650]
  constructor
  · decide
  · rw [List.take_replicate, List.length_replicate]
    decide

/-- C2 (corrected): in the 650-item scenario with subscriptions_limit = 300
the collector issues paged requests at offsets 0 and 200 only, and returns
exactly 300 group ids after truncation; in general the loop stops exactly
when the accumulator of kept ids has reached the limit or the page at the
last issued offset returned fewer items than the page size of 200. -/
theorem C2_amended :
    ((subsLoop subsData650 650 300 0 [] []).offsets = [0, 200] ∧
     ((subsLoop subsData650 650 300 0 [] []).all_group_ids.take 300).length = 300) ∧
    (∀ (data : List SubItem) (total slim offset : Nat) (acc : List Int) (offs : List Nat),
      slim ≤ (subsLoop data total slim offset acc offs).all_group_ids.length ∨
      data.length <
        (subsLoop data total slim offset acc offs).offsets.getLastD 0 + 200) := by
  refine ⟨⟨?_, ?_⟩, ?_⟩
  · rw [subsLoop_650]
  · rw [subsLoop_650]
    rw [List.take_replicate, List.length_replicate]
    decide
  · intro data total slim offset acc offs
    induction offset, acc, offs using subsLoop.induct data total slim with
    | case1 offset acc offs h =>
      rw [subsLoop.eq_def, if_pos h]
      simp only [List.getLastD_concat]
      rcases h with h | h
      · right
        simp only [List.length_take, List.length_drop] at h
        omega
      · left
        exact h
    | case2 offset acc offs h ih =>
      rw [subsLoop.eq_def, if_neg h]
      exact ih

/-- C10 (confirmed): for a user whose profile fetch succeeded and whose
subscriptions interaction succeeded against a remote dataset reporting
envelope count total, the final write of the per-user step is the user node
carrying subscriptions_count = total, the count field of the last parsed
page envelope, independent of how many group ids were collected, truncated
or written as SUBSCRIBED_TO edges; in particular it can exceed
subscriptions_limit. -/
theorem C10_thm (env : Env) (uid : Int) (flim slim : Nat) (raw : RawProfile)
    (data : List SubItem) (total : Nat)
    (hp : env.profile uid = some raw) (hs : env.subs uid = some (data, total)) :
    (get_user_data env uid flim slim).2.getLast? =
      some (DbWrite.userNode (process_profile raw)
        ((env.friends uid).getD []).length total) := by
  unfold get_user_data
  rw [hp, hs]
  simp only [List.getLast?_concat, subsLoop_count]



/-- C10 witness: the persisted subscriptions_count is the envelope count 650,
which exceeds the subscriptions_limit of 300 used in the call. -/
theorem C10_witness :
    (envC10.profile 1 = some (rpOpen 1) ∧ envC10.subs 1 = some (subsData650, 650) ∧
      300 < 650) ∧
    (get_user_data envC10 1 20 300).2.getLast? =
      some (DbWrite.userNode (process_profile (rpOpen 1))
        ((envC10.friends 1).getD []).length 650) :=
  ⟨⟨rfl, rfl, by decide⟩, C10_thm envC10 1 20 300 (rpOpen 1) subsData650 650 rfl rfl⟩

/- Helper lemmas about the crawl. -/

theorem fetchedUsers_append (a b : List FetchEv) :
    fetchedUsers (a ++ b) = fetchedUsers a ++ fetchedUsers b := by
  unfold fetchedUsers
  exact List.filterMap_append a b _

theorem fetchedUsers_groupsFetch (cs : List (List Int)) :
    fetchedUsers (cs.map FetchEv.groupsFetch) = [] := by
  induction cs with
  | nil => rfl
  | cons c rest ih =>
    simpa [fetchedUsers, List.filterMap_cons] using ih

/- Exactly one users.get profile fetch is issued per get_user_data call: the
one for its own user id (friend records arrive embedded in friends.get). -/
theorem fetchedUsers_get_user_data (env : Env) (uid : Int) (flim slim : Nat) :
    fetchedUsers (get_user_data env uid flim slim).1 = [uid] := by
  unfold get_user_data
  rcases hp : env.profile uid with _ | raw
  · rfl
  · rcases hs : env.subs uid with _ | ⟨data, total⟩
    · rfl
    · rw [show ([FetchEv.profileFetch uid, FetchEv.friendsFetch uid, FetchEv.subsFetch uid] :
          List FetchEv) = [FetchEv.profileFetch uid, FetchEv.friendsFetch uid,
          FetchEv.subsFetch uid] from rfl, fetchedUsers_append, fetchedUsers_groupsFetch,
        List.append_nil]
      rfl

theorem get_detailed_data_visited (env : Env) (uid : Int)
    (dl cd flim slim : Nat) (visited : List Int) (h : uid ∈ visited) :
    get_detailed_data env uid dl cd flim slim visited = (visited, [], []) := by
  rw [get_detailed_data.eq_def]
  simp [h]

theorem get_detailed_data_at_limit (env : Env) (uid : Int)
    (dl cd flim slim : Nat) (visited : List Int)
    (h : uid ∉ visited) (hd : ¬ cd < dl) :
    get_detailed_data env uid dl cd flim slim visited =
      (uid :: visited, (get_user_data env uid flim slim).1,
       (get_user_data env uid flim slim).2) := by
  rw [get_detailed_data.eq_def]
  simp [h, hd]

theorem get_detailed_data_rec_none (env : Env) (uid : Int)
    (dl cd flim slim : Nat) (visited : List Int)
    (h : uid ∉ visited) (hd : cd < dl) (hf : env.friends uid = none) :
    get_detailed_data env uid dl cd flim slim visited =
      (uid :: visited,
       (get_user_data env uid flim slim).1 ++ [FetchEv.friendsFetch uid],
       (get_user_data env uid flim slim).2) := by
  rw [get_detailed_data.eq_def]
  simp [h, hd, hf]

theorem get_detailed_data_rec_some (env : Env) (uid : Int)
    (dl cd flim slim : Nat) (visited : List Int) (fs : List RawProfile)
    (h : uid ∉ visited) (hd : cd < dl) (hf : env.friends uid = some fs) :
    get_detailed_data env uid dl cd flim slim visited =
      ((crawlFriends env fs dl (cd + 1) flim slim (uid :: visited)).1,
       (get_user_data env uid flim slim).1 ++ [FetchEv.friendsFetch uid]
         ++ (crawlFriends env fs dl (cd + 1) flim slim (uid :: visited)).2.1,
       (get_user_data env uid flim slim).2
         ++ (crawlFriends env fs dl (cd + 1) flim slim (uid :: visited)).2.2) := by
  rw [get_detailed_data.eq_def]
  simp [h, hd, hf]

theorem crawlFriends_nil (env : Env) (dl nd flim slim : Nat) (visited : List Int) :
    crawlFriends env [] dl nd flim slim visited = (visited, [], []) := by
  rw [crawlFriends.eq_def]

theorem crawlFriends_cons_private (env : Env) (f : RawProfile) (rest : List RawProfile)
    (dl nd flim slim : Nat) (visited : List Int)
    (h : (process_profile f).is_private = true) :
    crawlFriends env (f :: rest) dl nd flim slim visited =
      crawlFriends env rest dl nd flim slim visited := by
  rw [crawlFriends.eq_def]
  simp [h]

theorem crawlFriends_cons_open (env : Env) (f : RawProfile) (rest : List RawProfile)
    (dl nd flim slim : Nat) (visited : List Int)
    (h : (process_profile f).is_private = false) :
    crawlFriends env (f :: rest) dl nd flim slim visited =
      ((crawlFriends env rest dl nd flim slim
          (get_detailed_data env (process_profile f).id dl nd flim slim visited).1).1,
       (get_detailed_data env (process_profile f).id dl nd flim slim visited).2.1
         ++ (crawlFriends env rest dl nd flim slim
              (get_detailed_data env (process_profile f).id dl nd flim slim visited).1).2.1,
       (get_detailed_data env (process_profile f).id dl nd flim slim visited).2.2
         ++ (crawlFriends env rest dl nd flim slim
              (get_detailed_data env (process_profile f).id dl nd flim slim visited).1).2.2) := by
  rw [crawlFriends.eq_def]
  simp [h]

/- The friends loop preserves the visited-list invariant, given that every
recursive crawl at the next depth does. -/
theorem crawlFriends_visited_spec (env : Env) (dl nd flim slim : Nat)
    (IH : ∀ (u : Int) (v : List Int),
      (get_detailed_data env u dl nd flim slim v).1 =
        (fetchedUsers (get_detailed_data env u dl nd flim slim v).2.1).reverse ++ v ∧
      (v.Nodup → (get_detailed_data env u dl nd flim slim v).1.Nodup))
    (fs : List RawProfile) (visited : List Int) :
    (crawlFriends env fs dl nd flim slim visited).1 =
      (fetchedUsers (crawlFriends env fs dl nd flim slim visited).2.1).reverse ++ visited ∧
    (visited.Nodup → (crawlFriends env fs dl nd flim slim visited).1.Nodup) := by
  induction fs generalizing visited with
  | nil =>
    rw [crawlFriends_nil]
    exact ⟨by simp [fetchedUsers], fun h => h⟩
  | cons f rest ih =>
    rcases hpriv : (process_profile f).is_private with _ | _
    case cons.true =>
      rw [crawlFriends_cons_private env f rest dl nd flim slim visited hpriv]
      exact ih visited
    case cons.false =>
      rw [crawlFriends_cons_open env f rest dl nd flim slim visited hpriv]
      obtain ⟨e1, n1⟩ := IH (process_profile f).id visited
      obtain ⟨e2, n2⟩ :=
        ih (get_detailed_data env (process_profile f).id dl nd flim slim visited).1
      constructor
      · rw [e2, e1, fetchedUsers_append, List.reverse_append, List.append_assoc]
      · intro hv
        exact n2 (n1 hv)

/- The visited list returned by a crawl is exactly the profile-fetched user
ids (in reverse fetch order) prepended to the incoming visited list, and it
is duplicate-free whenever the incoming list is. -/
theorem get_detailed_data_visited_spec (env : Env) (flim slim dl : Nat) :
    ∀ (m cd : Nat), dl + 1 - cd ≤ m → ∀ (uid : Int) (visited : List Int),
      (get_detailed_data env uid dl cd flim slim visited).1 =
        (fetchedUsers (get_detailed_data env uid dl cd flim slim visited).2.1).reverse
          ++ visited ∧
      (visited.Nodup → (get_detailed_data env uid dl cd flim slim visited).1.Nodup) := by
  intro m
  induction m with
  | zero =>
    intro cd hm uid visited
    have hd : ¬ cd < dl := by omega
    by_cases hv : uid ∈ visited
    · rw [get_detailed_data_visited env uid dl cd flim slim visited hv]
      exact ⟨by simp [fetchedUsers], fun h => h⟩
    · rw [get_detailed_data_at_limit env uid dl cd flim slim visited hv hd]
      refine ⟨?_, ?_⟩
      · simp [fetchedUsers_get_user_data]
      · intro h
        exact List.nodup_cons.mpr ⟨hv, h⟩
  | succ k ihm =>
    intro cd hm uid visited
    by_cases hv : uid ∈ visited
    · rw [get_detailed_data_visited env uid dl cd flim slim visited hv]
      exact ⟨by simp [fetchedUsers], fun h => h⟩
    · by_cases hd : cd < dl
      · rcases hf : env.friends uid with _ | fs
        · rw [get_detailed_data_rec_none env uid dl cd flim slim visited hv hd hf]
          refine ⟨?_, ?_⟩
          · rw [fetchedUsers_append, fetchedUsers_get_user_data]
            rfl
          · intro h
            exact List.nodup_cons.mpr ⟨hv, h⟩
        · rw [get_detailed_data_rec_some env uid dl cd flim slim visited fs hv hd hf]
          have hIH : ∀ (u : Int) (v : List Int),
              (get_detailed_data env u dl (cd + 1) flim slim v).1 =
                (fetchedUsers (get_detailed_data env u dl (cd + 1) flim slim v).2.1).reverse
                  ++ v ∧
              (v.Nodup → (get_detailed_data env u dl (cd + 1) flim slim v).1.Nodup) :=
            fun u v => ihm (cd + 1) (by omega) u v
          obtain ⟨ef, nf⟩ := crawlFriends_visited_spec env dl (cd + 1) flim slim hIH fs
            (uid :: visited)
          refine ⟨?_, ?_⟩
          · rw [ef, fetchedUsers_append, fetchedUsers_append, fetchedUsers_get_user_data]
            simp [fetchedUsers]
          · intro h
            exact nf (List.nodup_cons.mpr ⟨hv, h⟩)
      · rw [get_detailed_data_at_limit env uid dl cd flim slim visited hv hd]
        refine ⟨?_, ?_⟩
        · simp [fetchedUsers_get_user_data]
        · intro h
          exact List.nodup_cons.mpr ⟨hv, h⟩

/-- C5 (confirmed): during one crawl run the visited list only grows (every
previously visited id is still in the returned visited list), each user id
occurs at most once in it (it stays duplicate-free), and no user id is
profile-fetched or expanded twice: the list of profile-fetched ids has no
duplicate and is disjoint from the ids already visited, even when a user is
reachable through several branches or a friendship cycle. -/
theorem C5_thm (env : Env) (uid : Int) (dl cd flim slim : Nat) (visited : List Int)
    (h : visited.Nodup) :
    (∀ u ∈ visited, u ∈ (get_detailed_data env uid dl cd flim slim visited).1) ∧
    (get_detailed_data env uid dl cd flim slim visited).1.Nodup ∧
    (fetchedUsers (get_detailed_data env uid dl cd flim slim visited).2.1).Nodup ∧
    (∀ u ∈ fetchedUsers (get_detailed_data env uid dl cd flim slim visited).2.1,
      u ∉ visited) := by
  obtain ⟨hvis, hnod⟩ := get_detailed_data_visited_spec env flim slim dl
    (dl + 1 - cd) cd le_rfl uid visited
  have hn := hnod h
  rw [hvis] at hn ⊢
  rw [List.nodup_append] at hn
  obtain ⟨hrev, hvisn, hdisj⟩ := hn
  refine ⟨?_, ?_, ?_, ?_⟩
  · intro u hu
    exact List.mem_append_right _ hu
  · rw [← hvis]
    exact hnod h
  · exact List.nodup_reverse.mp hrev
  · intro u hu
    exact hdisj (List.mem_reverse.mpr hu)


/-- C5 witness: a concrete crawl from user 1 with an empty visited list. -/
theorem C5_witness :
    (([] : List Int).Nodup) ∧
    ((∀ u ∈ ([] : List Int), u ∈ (get_detailed_data envC1 1 2 1 20 40 []).1) ∧
     (get_detailed_data envC1 1 2 1 20 40 []).1.Nodup ∧
     (fetchedUsers (get_detailed_data envC1 1 2 1 20 40 []).2.1).Nodup ∧
     (∀ u ∈ fetchedUsers (get_detailed_data envC1 1 2 1 20 40 []).2.1,
       u ∉ ([] : List Int))) :=
  ⟨List.nodup_nil, C5_thm envC1 1 2 1 20 40 [] List.nodup_nil⟩

/-- C1 (corrected): when the profile fetch of a user fails after exhausting
retries, the per-user step contributes only the attempted profile fetch and
performs no write at all, but the crawl run does not abort, not even for the
root user: whenever the current depth is below the depth limit the
orchestrator still fetches the friends of that user a second time and
recurses into every non-private friend, and sibling branches continue; root
(current depth 1) and non-root users are handled identically. -/
theorem C1_thm (env : Env) (uid : Int) (dl cd flim slim : Nat) (visited : List Int)
    (fs : List RawProfile)
    (hnv : uid ∉ visited) (hp : env.profile uid = none) (hlt : cd < dl)
    (hf : env.friends uid = some fs) :
    get_user_data env uid flim slim = ([FetchEv.profileFetch uid], []) ∧
    (get_detailed_data env uid dl cd flim slim visited).2.1 =
      FetchEv.profileFetch uid :: FetchEv.friendsFetch uid ::
        (crawlFriends env fs dl (cd + 1) flim slim (uid :: visited)).2.1 ∧
    (get_detailed_data env uid dl cd flim slim visited).2.2 =
      (crawlFriends env fs dl (cd + 1) flim slim (uid :: visited)).2.2 := by
  have hud : get_user_data env uid flim slim = ([FetchEv.profileFetch uid], []) := by
    unfold get_user_data
    rw [hp]
  refine ⟨hud, ?_, ?_⟩ <;>
    rw [get_detailed_data_rec_some env uid dl cd flim slim visited fs hnv hlt hf] <;>
    simp [hud]

/-- C1 witness: the concrete environment envC1, root user 1 at depth 1 with
depth limit 2. -/
theorem C1_witness :
    ((1 : Int) ∉ ([] : List Int) ∧ envC1.profile 1 = none ∧ 1 < 2 ∧
      envC1.friends 1 = some [rpOpen 2]) ∧
    (get_user_data envC1 1 20 40 = ([FetchEv.profileFetch 1], []) ∧
     (get_detailed_data envC1 1 2 1 20 40 []).2.1 =
       FetchEv.profileFetch 1 :: FetchEv.friendsFetch 1 ::
         (crawlFriends envC1 [rpOpen 2] 2 2 20 40 [1]).2.1 ∧
     (get_detailed_data envC1 1 2 1 20 40 []).2.2 =
       (crawlFriends envC1 [rpOpen 2] 2 2 20 40 [1]).2.2) :=
  ⟨⟨by decide, rfl, by decide, rfl⟩,
   C1_thm envC1 1 2 1 20 40 [] [rpOpen 2] (by decide) rfl (by decide) rfl⟩

/-- C1 counterexample: in envC1 the root profile fetch fails, yet the crawl
does not abort: the fetch trace of the run contains the friends fetch for
the root and the profile fetch of friend 2, performed by the recursion the
claim says cannot take place. -/
theorem C1_counterexample :
    FetchEv.friendsFetch 1 ∈ (get_detailed_data envC1 1 2 1 20 40 []).2.1 ∧
    FetchEv.profileFetch 2 ∈ (get_detailed_data envC1 1 2 1 20 40 []).2.1 := by
  have h1 : get_detailed_data envC1 2 2 2 20 40 [1] =
      ([2, 1],
       [FetchEv.profileFetch 2, FetchEv.friendsFetch 2, FetchEv.subsFetch 2],
       [DbWrite.userNode (process_profile (rpOpen 2)) 0 0]) := by
    rw [get_detailed_data_at_limit envC1 2 2 2 20 40 [1] (by decide) (by decide)]
    rfl
  have h2 : get_detailed_data envC1 1 2 1 20 40 [] =
      ((crawlFriends envC1 [rpOpen 2] 2 2 20 40 [1]).1,
       [FetchEv.profileFetch 1] ++ [FetchEv.friendsFetch 1]
         ++ (crawlFriends envC1 [rpOpen 2] 2 2 20 40 [1]).2.1,
       [] ++ (crawlFriends envC1 [rpOpen 2] 2 2 20 40 [1]).2.2) := by
    rw [get_detailed_data_rec_some envC1 1 2 1 20 40 [] [rpOpen 2] (by decide) (by decide) rfl]
    rfl
  have h3 : crawlFriends envC1 [rpOpen 2] 2 2 20 40 [1] =
      ((crawlFriends envC1 [] 2 2 20 40 (get_detailed_data envC1 2 2 2 20 40 [1]).1).1,
       (get_detailed_data envC1 2 2 2 20 40 [1]).2.1
         ++ (crawlFriends envC1 [] 2 2 20 40 (get_detailed_data envC1 2 2 2 20 40 [1]).1).2.1,
       (get_detailed_data envC1 2 2 2 20 40 [1]).2.2
         ++ (crawlFriends envC1 [] 2 2 20 40 (get_detailed_data envC1 2 2 2 20 40 [1]).1).2.2) := by
    exact crawlFriends_cons_open envC1 (rpOpen 2) [] 2 2 20 40 [1] (by decide)
  rw [h2, h3, h1, crawlFriends_nil]
  decide

/- A subscriptions interaction over an empty remote dataset: the first page
is empty, so the loop stops at offset 0 with no collected id. -/
theorem subsLoop_nil (total slim : Nat) :
    subsLoop [] total slim 0 [] [] = ⟨[], total, [0]⟩ := by
  rw [subsLoop.eq_def]
  norm_num

/- The per-user step when profile and friends fetches succeed and the user
has an empty subscriptions dataset with envelope count 0. -/
theorem get_user_data_empty_subs (env : Env) (uid : Int) (flim slim : Nat)
    (raw : RawProfile) (fs : List RawProfile)
    (hp : env.profile uid = some raw) (hf : env.friends uid = some fs)
    (hs : env.subs uid = some ([], 0)) :
    get_user_data env uid flim slim =
      ([FetchEv.profileFetch uid, FetchEv.friendsFetch uid, FetchEv.subsFetch uid],
       fs.flatMap (fun f =>
          if (process_profile f).is_private then []
          else [DbWrite.userNode (process_profile f) 0 0,
                DbWrite.friendEdge (process_profile raw).id (process_profile f).id])
         ++ [DbWrite.userNode (process_profile raw) fs.length 0]) := by
  unfold get_user_data
  rw [hp, hf, hs]
  simp [subsLoop_nil, group_chunks, List.range']


/-- C4 (code bug): crawling root user 1 with 3 friends of which exactly one
is private, against a freshly wiped store, issues exactly the two FRIEND
creation calls (1,2) and (1,3) and creates exactly the two friend User nodes
2 and 3 plus the root node 1 and no node for the private friend 4 — but the
two FRIEND MERGE calls run before the root User node exists (the root node
write is the last write of the step), so their MATCH on the root id finds no
row and the resulting store contains zero FRIEND edges, not the two the
claim describes. -/
theorem C4_thm :
    friendEdgeCalls (get_detailed_data envC4 1 1 1 20 40 []).2.2 = [(1, 2), (1, 3)] ∧
    ((applyWrites emptyStore (get_detailed_data envC4 1 1 1 20 40 []).2.2).users.map
        StoredUser.id) = [2, 3, 1] ∧
    (applyWrites emptyStore (get_detailed_data envC4 1 1 1 20 40 []).2.2).friend_edges
      = [] := by
  have hw : (get_detailed_data envC4 1 1 1 20 40 []).2.2 =
      [DbWrite.userNode (process_profile (rpOpen 2)) 0 0,
       DbWrite.friendEdge 1 2,
       DbWrite.userNode (process_profile (rpOpen 3)) 0 0,
       DbWrite.friendEdge 1 3,
       DbWrite.userNode (process_profile (rpOpen 1)) 3 0] := by
    rw [get_detailed_data_at_limit envC4 1 1 1 20 40 [] (by decide) (by decide),
      get_user_data_empty_subs envC4 1 20 40 (rpOpen 1) [rpOpen 2, rpOpen 3, rpClosed 4]
        rfl rfl rfl]
    decide
  rw [hw]
  decide


/-- C6 (code bug): recursion never proceeds past depth_limit: at current
depth equal to the depth limit the crawl of a user profile-fetches that user
only and recurses into nobody, whatever the environment; with
depth_limit = 1 in envC6 only the root 1 is profile-fetched, the store holds
exactly the User nodes 2, 3 (the direct non-private friends) and 1, and no
friend-of-friend node such as 5 — but, contrary to the last part of the
claim, the two FRIEND edge MERGE calls (1,2) and (1,3), issued before the
root User node exists, match no root row, so the store holds no FRIEND edge
from the root. -/
theorem C6_thm :
    (∀ (env : Env) (uid : Int) (dl flim slim : Nat),
        fetchedUsers (get_detailed_data env uid dl dl flim slim []).2.1 = [uid]) ∧
    fetchedUsers (get_detailed_data envC6 1 1 1 20 40 []).2.1 = [1] ∧
    ((applyWrites emptyStore (get_detailed_data envC6 1 1 1 20 40 []).2.2).users.map
        StoredUser.id) = [2, 3, 1] ∧
    friendEdgeCalls (get_detailed_data envC6 1 1 1 20 40 []).2.2 = [(1, 2), (1, 3)] ∧
    (applyWrites emptyStore (get_detailed_data envC6 1 1 1 20 40 []).2.2).friend_edges
      = [] := by
  have hgen : ∀ (env : Env) (uid : Int) (dl flim slim : Nat),
      fetchedUsers (get_detailed_data env uid dl dl flim slim []).2.1 = [uid] := by
    intro env uid dl flim slim
    rw [get_detailed_data_at_limit env uid dl dl flim slim [] (List.not_mem_nil uid)
      (lt_irrefl dl)]
    exact fetchedUsers_get_user_data env uid flim slim
  have hstep := get_detailed_data_at_limit envC6 1 1 1 20 40 [] (by decide) (by decide)
  have hud := get_user_data_empty_subs envC6 1 20 40 (rpOpen 1) [rpOpen 2, rpOpen 3]
    rfl rfl rfl
  refine ⟨hgen, ?_, ?_, ?_, ?_⟩ <;> rw [hstep, hud] <;> decide
